import Mathlib

/-!
Verification of the money-movement edge functions of the repository
(withdrawal handler, peer wallet-transfer handler, approval webhook).

The source is `src/supabase/functions/withdraw-funds/index.ts`, which contains
three `serve` handlers.  JavaScript numbers are modelled as rationals (`ℚ`),
`Math.floor` as `Int.floor` and `Math.round x` as `Int.floor (x + 1/2)`.
Outbound HTTP calls (Paystack) and database operations are modelled by
injected outcomes carried in an environment record; each handler is a pure
function from that environment to its HTTP response together with a trace of
the externally visible operations it performed (provider calls, wallet reads,
wallet updates, transaction-record inserts).  String formatting that the
source performs with `toFixed(2)` is abstracted as `toString`.  The handlers
are modelled from the parsed request body onward: CORS preflight and the
bearer-credential authentication step (a 401 on failure) precede everything
modelled here, and the third handler (the approval webhook) is not modelled,
as no claim concerns it.
-/

namespace QuickHelloWave

/-- Does the first list occur at the head of the second? -/
def leadsWith : List Char → List Char → Bool
  | [], _ => true
  | _ :: _, [] => false
  | a :: as, b :: bs => a = b && leadsWith as bs

/-- Does the first list occur contiguously anywhere in the second? -/
def occursIn : List Char → List Char → Bool
  | n, [] => leadsWith n []
  | n, c :: cs => leadsWith n (c :: cs) || occursIn n cs

/-- Substring test, modelling the JavaScript `String.prototype.includes`. -/
def substrOf (needle hay : String) : Bool :=
  occursIn needle.toList hay.toList

/-- Lower-casing, modelling `String.prototype.toLowerCase` on the ASCII
identifiers this code compares. -/
def sToLower (s : String) : String :=
  (s.toList.map Char.toLower).asString

/-- Upper-casing, modelling `String.prototype.toUpperCase`. -/
def sToUpper (s : String) : String :=
  (s.toList.map Char.toUpper).asString

/-- Whitespace trim at both ends, modelling `String.prototype.trim`. -/
def sTrim (s : String) : String :=
  ((s.toList.dropWhile Char.isWhitespace).reverse.dropWhile Char.isWhitespace).reverse.asString

/-- Does the string start with the given literal (JS `startsWith`)? -/
def sStartsWith (s pre : String) : Bool :=
  leadsWith pre.toList s.toList

/-- Drop the first `n` characters (JS `slice(n)` for nonnegative `n`). -/
def sDrop (s : String) (n : Nat) : String :=
  (s.toList.drop n).asString

/-- The JSON body of an HTTP response produced by either handler, one optional
field per JSON key that some response of the source carries.  `minViable` is
the numeric value the source interpolates into the `amount_too_low` message
(`Minimum amount after fees: KES ${fee + 1}`). -/
structure HttpResp where
  status : Nat
  success : Option Bool
  message : Option String
  error : Option String
  code : Option String
  fee : Option ℚ
  minViable : Option ℚ
  amount : Option ℚ
  netAmount : Option ℚ
  destination : Option String
  paymentMethod : Option String
  reference : Option String
  newBalance : Option ℚ
  remainingBalance : Option ℚ
  amountSent : Option ℚ
  recipient : Option String
  balance : Option ℚ
deriving DecidableEq

/-- Response with a status and no body fields. -/
def emptyResp (st : Nat) : HttpResp :=
  ⟨st, none, none, none, none, none, none, none, none, none, none, none, none,
   none, none, none, none⟩

/-- Error response carrying `success: false`, an error message and an optional code. -/
def mkErr (st : Nat) (err : String) (code : Option String) : HttpResp :=
  { emptyResp st with success := some false, error := some err, code := code }

/-- Error response carrying only an error message (no `success` field in the source). -/
def mkPlainErr (st : Nat) (err : String) : HttpResp :=
  { emptyResp st with error := some err }

/-- A row of the `wallet_transactions` table as inserted by the handlers.
`txType` is the `type` column; `metadata_fee` and `metadata_net` are the
`fee` and `net_amount` keys of the `metadata` JSON of the withdrawal insert
(the `payment_method` and `destination_details` metadata keys, echoes of the
request, are not modelled). -/
structure TxRecord where
  user_id : String
  txType : String
  amount : ℚ
  description : String
  status : String
  reference_id : Option String
  metadata_fee : Option ℚ
  metadata_net : Option ℚ
deriving DecidableEq

/-- Externally visible operations of the withdrawal handler, in order:
Paystack balance query, Paystack mobile-money catalog fetch, transfer-recipient
creation (mobile, with the phone used), transfer-recipient creation (bank),
transfer initiation (with the kobo amount sent), wallet read, successful
wallet balance update (with the written balance), transaction-record insert. -/
inductive Ev where
  | balanceCheckCall
  | banksFetchCall
  | recipientCall (phone : String)
  | bankRecipientCall
  | transferCall (amountKobo : ℤ)
  | walletRead
  | walletUpdate (newBalance : ℚ)
  | txInsert (txr : TxRecord)
deriving DecidableEq

/-- Is this event a transfer initiation? -/
def Ev.isTransfer : Ev → Bool
  | .transferCall _ => true
  | _ => false

/-- Is this event a call to the external payment provider? -/
def Ev.isProviderCall : Ev → Bool
  | .balanceCheckCall => true
  | .banksFetchCall => true
  | .recipientCall _ => true
  | .bankRecipientCall => true
  | .transferCall _ => true
  | _ => false

/-- The phones attempted by recipient creation, in trace order. -/
def recipPhones (tr : List Ev) : List String :=
  tr.filterMap fun e => match e with
    | .recipientCall p => some p
    | _ => none

/-- Externally visible operations of the peer wallet-transfer handler. -/
inductive PEv where
  | readWallet (userId : String)
  | updateWallet (userId : String) (newBalance : ℚ)
  | insertTx (records : List TxRecord)
deriving DecidableEq

/-!
## RetryExecutor: `retryWithBackoff` (withdraw-funds/index.ts lines 9-31)

The source loops `i = 0 .. maxRetries-1`, returning the first success; on
failure it stores the error and, when `i < maxRetries - 1`, sleeps
`initialDelay * 2^i` before the next attempt; after the loop it throws the
stored error (which is `null` when `maxRetries = 0`, modelled as `none`).
The model is parameterised by the outcome of each attempt (`fn i`) and also
returns the number of attempts made and the list of delays slept, in order.
-/

structure RetryResult (ε α : Type) where
  result : Except (Option ε) α
  attempts : Nat
  delays : List ℚ

/-- One step of the retry loop; `fuel = maxRetries - i` iterations remain.
`fuel = 1` means the current attempt is the last (`i = maxRetries - 1`). -/
def retryAux (fn : Nat → Except ε α) (initialDelay : ℚ) : Nat → Nat → RetryResult ε α
  | _, 0 => ⟨.error none, 0, []⟩
  | i, 1 =>
    match fn i with
    | .ok a => ⟨.ok a, 1, []⟩
    | .error e => ⟨.error (some e), 1, []⟩
  | i, fuel + 2 =>
    match fn i with
    | .ok a => ⟨.ok a, 1, []⟩
    | .error _ =>
      let r := retryAux fn initialDelay (i + 1) (fuel + 1)
      ⟨r.result, r.attempts + 1, (initialDelay * 2 ^ i) :: r.delays⟩

/-- Model of `retryWithBackoff(fn, maxRetries, initialDelay)`. -/
def retryWithBackoff (fn : Nat → Except ε α) (maxRetries : Nat) (initialDelay : ℚ) :
    RetryResult ε α :=
  retryAux fn initialDelay 0 maxRetries

/-!
## FeeCalculator: `calculateFee` (withdraw-funds/index.ts lines 155-175)
-/

/-- The fee schedule of the withdrawal handler; `0.005` is `5/1000` and
`0.001` is `1/1000`. -/
def calculateFee (amt : ℚ) (method : String) : ℚ :=
  if method = "mpesa" then
    if amt ≤ 100 then 0
    else if amt ≤ 2500 then 15
    else if amt ≤ 3500 then 25
    else if amt ≤ 5000 then 30
    else if amt ≤ 7500 then 45
    else if amt ≤ 10000 then 50
    else max 50 ((Int.floor (amt * (5 / 1000)) : ℤ) : ℚ)
  else if method = "airtel" then
    if amt ≤ 100 then 0
    else if amt ≤ 2500 then 15
    else if amt ≤ 5000 then 30
    else max 50 ((Int.floor (amt * (5 / 1000)) : ℤ) : ℚ)
  else if method = "bank" then
    max 25 ((Int.floor (amt * (1 / 1000)) : ℤ) : ℚ)
  else 0

/-- Tier index of an amount in the `mpesa` schedule of `calculateFee`. -/
def mpesaTier (amt : ℚ) : Nat :=
  if amt ≤ 100 then 0
  else if amt ≤ 2500 then 1
  else if amt ≤ 3500 then 2
  else if amt ≤ 5000 then 3
  else if amt ≤ 7500 then 4
  else if amt ≤ 10000 then 5
  else 6

/-- Tier index of an amount in the `airtel` schedule of `calculateFee`. -/
def airtelTier (amt : ℚ) : Nat :=
  if amt ≤ 100 then 0
  else if amt ≤ 2500 then 1
  else if amt ≤ 5000 then 2
  else 3

/-- Tier index of an amount in the schedule of the given channel; the `bank`
schedule is a single tier. -/
def feeTier (method : String) (amt : ℚ) : Nat :=
  if method = "mpesa" then mpesaTier amt
  else if method = "airtel" then airtelTier amt
  else 0

/-- Fee of the peer wallet-transfer handler: `Math.min(Math.max(amount * 0.01, 10), 100)`
(second serve handler, its fee lines). -/
def transactionFee (amount : ℚ) : ℚ :=
  min (max (amount * (1 / 100)) 10) 100

/-!
## RecipientResolver: phone normalization (withdraw-funds/index.ts lines 342-351)
-/

/-- The two phone formats prepared by the handler. -/
structure Phones where
  intl : String
  localFmt : String
deriving DecidableEq

/-- Trim the raw phone, then delete every whitespace character and every dash,
modelling the two `replace` calls of line 344. -/
def stripSpacesDashes (s : String) : String :=
  ((sTrim s).toList.filter fun c => !(c.isWhitespace || c = '-')).asString

/-- Normalization of `destinationDetails.phone_number` into the international
form tried first and the local form used by the fallback. -/
def preparePhones (raw : String) : Phones :=
  let phoneNoSpaces := stripSpacesDashes raw
  let noPlus := if sStartsWith phoneNoSpaces "+" then sDrop phoneNoSpaces 1 else phoneNoSpaces
  let intlPhone :=
    if sStartsWith noPlus "0" then "254" ++ sDrop noPlus 1
    else if sStartsWith noPlus "254" then noPlus
    else "254" ++ noPlus
  let localPhone := if sStartsWith intlPhone "254" then "0" ++ sDrop intlPhone 3 else phoneNoSpaces
  ⟨intlPhone, localPhone⟩

/-!
## Injected outcomes of the outbound calls of the withdrawal handler

Each outbound call site (already wrapped in `retryWithBackoff` and
`fetchWithTimeout` in the source) is modelled by the final outcome observed at
that call site: a parsed OK response, a non-OK or rejected response, a JSON
parse failure, a thrown `network_timeout`, or another thrown error.
-/

/-- Outcome of the Paystack balance pre-check (lines 201-256).  `ok hasData k`
is a 200 response whose body has truthy `status` and `data` iff `hasData`,
with `data[0].balance = k` kobo. -/
inductive BalanceCheckOutcome where
  | ok (hasData : Bool) (balanceKobo : ℚ)
  | notOk
  | timeout
  | otherError
deriving DecidableEq

/-- An entry of the Paystack mobile-money catalog. -/
structure PBank where
  name : String
  slug : String
  code : String
deriving DecidableEq

/-- Outcome of the mobile-money catalog fetch (lines 262-313). -/
inductive BanksOutcome where
  | ok (banks : List PBank)
  | parseError
  | apiError (httpStatus : Nat) (message : Option String)
  | timeout
  | otherError
deriving DecidableEq

/-- Outcome of a transfer-recipient creation call (mobile lines 355-403,
bank lines 427-471). -/
inductive RecipOutcome where
  | ok (recipientCode : String)
  | rejected (httpStatus : Nat) (message : Option String) (code : Option String)
  | parseError
  | timeout
  | otherError
deriving DecidableEq

/-- Outcome of the transfer initiation call (lines 484-571). -/
inductive TransferOutcome where
  | ok (reference : Option String)
  | failed (httpStatus : Nat) (message : Option String) (code : Option String)
  | parseError
  | timeout
  | otherError
deriving DecidableEq

/-- The `destinationDetails` of a withdrawal request; `none` models an absent
(or falsy) field. -/
structure Dest where
  phone_number : Option String
  account_number : Option String
  bank_name : Option String
  account_name : Option String
deriving DecidableEq

/-- Environment of one withdrawal request: the authenticated caller, the parsed
request body (`amount = none` models a missing or non-numeric amount), the
ledger state and the injected outcomes of every outbound call and database
write.  `recip` gives the outcome of recipient creation per phone attempted;
`now` is `Date.now()`. -/
structure WEnv where
  userId : String
  userEmail : Option String
  amount : Option ℚ
  paymentMethod : String
  dest : Option Dest
  walletBalance : Option ℚ
  secretConfigured : Bool
  balanceCheck : BalanceCheckOutcome
  banksFetch : BanksOutcome
  recip : String → RecipOutcome
  bankRecip : RecipOutcome
  transfer : TransferOutcome
  walletUpdateOk : Bool
  now : Nat

/-!
## Withdrawal handler responses (fixed bodies of the source)
-/

def invalidAmountResp : HttpResp :=
  mkErr 400 "Please enter a valid withdrawal amount" (some "invalid_amount")

def destRequiredResp : HttpResp := mkPlainErr 400 "Destination details required"

def bankIncompleteResp : HttpResp := mkPlainErr 400 "Bank account details incomplete"

def phoneRequiredResp : HttpResp :=
  mkPlainErr 400 "Phone number required for mobile money withdrawal"

def walletNotFoundResp : HttpResp := mkErr 404 "Wallet not found" none

def insufficientBalanceResp : HttpResp := mkErr 400 "Insufficient balance" none

def notConfiguredResp : HttpResp := mkErr 500 "Payment service not configured" none

/-- The `amount_too_low` rejection; carries the fee and interpolates `fee + 1`. -/
def amountTooLowResp (fee : ℚ) : HttpResp :=
  { mkErr 400 ("Withdrawal amount too low. Minimum amount after fees: KES " ++ toString (fee + 1))
      (some "amount_too_low") with
    fee := some fee, minViable := some (fee + 1) }

def payInsufficientResp : HttpResp :=
  mkErr 503 "Insufficient funds in withdrawal service. Our team has been notified. Please try again later or contact support."
    (some "insufficient_balance")

def networkTimeoutResp : HttpResp :=
  mkErr 503 "Network timeout. Please check your connection and try again." (some "network_error")

def providerNotAvailResp (method : String) : HttpResp :=
  mkErr 400 (sToUpper method ++ " provider not available") none

def walletUpdateFailResp : HttpResp := mkErr 500 "Failed to update wallet" none

/-- The 200 body of a successful withdrawal (lines 620-633). -/
def withdrawSuccessResp (amount fee net : ℚ) (destStr method : String)
    (ref : Option String) (newBal : ℚ) : HttpResp :=
  { emptyResp 200 with
    success := some true, message := some "Withdrawal successful",
    amount := some amount, fee := some fee, netAmount := some net,
    destination := some destStr, paymentMethod := some method,
    reference := ref, newBalance := some newBal }

/-!
## Withdrawal handler stages
-/

/-- Decision of the Paystack balance pre-check: `some r` rejects the request
with response `r`; `none` proceeds.  A non-OK response and a thrown error
other than `network_timeout` are swallowed and proceed (lines 238-240 and the
fall-through of the catch at 241-256); a thrown `network_timeout` rejects
(lines 245-254); a body reporting a balance below the net amount rejects
(lines 227-236). -/
def precheckDecide (net : ℚ) : BalanceCheckOutcome → Option HttpResp
  | .ok hasData balanceKobo =>
    if hasData then
      if balanceKobo / 100 < net then some payInsufficientResp else none
    else none
  | .notOk => none
  | .timeout => some networkTimeoutResp
  | .otherError => none

/-- Mapping of the catalog-fetch outcome to either the bank list or an error
response (lines 262-313). -/
def banksDecide : BanksOutcome → Except HttpResp (List PBank)
  | .ok banks => .ok banks
  | .parseError => .error (mkErr 503 "Payment service error. Please try again." (some "service_error"))
  | .apiError st msg =>
    .error (mkErr (if 500 ≤ st then 503 else 400)
      (msg.getD "Payment service temporarily unavailable")
      (some (if 500 ≤ st then "service_unavailable" else "payment_error")))
  | .timeout => .error (mkErr 503 "Network timeout. Please try again." (some "network_error"))
  | .otherError => .error (mkErr 503 "Payment service temporarily unavailable." (some "service_unavailable"))

/-- Provider matching over the catalog (lines 316-327). -/
def matchesProvider (method : String) (b : PBank) : Bool :=
  let nm := sToLower b.name
  let sl := sToLower b.slug
  let cd := sToUpper b.code
  if method = "mpesa" then
    cd = "MPESA" || substrOf "m-pesa" nm || substrOf "mpesa" nm ||
      substrOf "m-pesa" sl || substrOf "mpesa" sl
  else if method = "airtel" then
    cd = "ATL_KE" || substrOf "airtel" nm || substrOf "airtel" sl
  else false

def findProvider (method : String) (banks : List PBank) : Option PBank :=
  banks.find? (matchesProvider method)

/-- The value `createRecipientWithPhone` resolves to (lines 355-403): the JS
object `{ ok, data, message, code }`, with `recipientCode` standing for
`data.data.recipient_code`. -/
structure RecipResult where
  ok : Bool
  recipientCode : Option String
  message : Option String
  code : Option String
deriving DecidableEq

def recipResult : RecipOutcome → RecipResult
  | .ok rc => ⟨true, some rc, none, none⟩
  | .rejected _ msg code => ⟨false, none, msg, code⟩
  | .parseError => ⟨false, none, some "Payment service error", some "service_error"⟩
  | .timeout => ⟨false, none, some "Network timeout. Please try again.", some "network_error"⟩
  | .otherError => ⟨false, none, some "Payment service error", some "service_error"⟩

/-- The fallback condition of line 407: first attempt not ok and its message
contains (case-insensitively) `account number is invalid`. -/
def invalidAccountMsg (r : RecipResult) : Bool :=
  !r.ok &&
    (match r.message with
     | some m => substrOf "account number is invalid" (sToLower m)
     | none => false)

/-- The mobile recipient failure response (lines 412-422). -/
def mobileRecipFailResp (r : RecipResult) : HttpResp :=
  mkErr (if r.code = some "network_error" then 503 else 400)
    (r.message.getD "Failed to create recipient")
    (some (r.code.getD "recipient_error"))

/-- Mapping of the bank recipient-creation outcome (lines 427-471); a JSON
parse failure there is caught by the surrounding catch, hence maps like any
non-timeout thrown error. -/
def bankRecipDecide : RecipOutcome → Except HttpResp String
  | .ok rc => .ok rc
  | .rejected st msg _ =>
    .error (mkErr (if 500 ≤ st then 503 else 400)
      (msg.getD "Failed to create bank recipient")
      (some (if 500 ≤ st then "service_unavailable" else "recipient_error")))
  | .parseError => .error (mkErr 503 "Payment service temporarily unavailable" (some "service_unavailable"))
  | .timeout => .error (mkErr 503 "Network timeout. Please try again." (some "network_error"))
  | .otherError => .error (mkErr 503 "Payment service temporarily unavailable" (some "service_unavailable"))

/-- `Math.round(netAmount * 100)`: the kobo amount of the transfer body. -/
def koboAmount (net : ℚ) : ℤ := Int.floor (net * 100 + 1 / 2)

/-- The failure response of a transfer the provider answered but rejected
(lines 524-550). -/
def transferFailResp (st : Nat) (msg code : Option String) : HttpResp :=
  let m := msg.getD "Transfer failed"
  if code = some "insufficient_balance" || substrOf "balance is not enough" (sToLower m) then
    mkErr 503 "Insufficient funds in withdrawal service. Our team has been notified. Please try again later or contact support."
      (some "insufficient_balance")
  else if 500 ≤ st then
    mkErr 503 "Payment service temporarily unavailable. Please try again later." (some "service_unavailable")
  else
    mkErr 400 m code

/-- `destination` of the success body and the record (lines 591-593). -/
def destString (method : String) (d : Dest) : String :=
  if method = "bank" then (d.bank_name.getD "") ++ " - " ++ (d.account_number.getD "")
  else d.phone_number.getD ""

/-- Ledger reconciliation and recording after a successful transfer
(lines 573-633): the wallet debit of the gross amount, the transaction-record
insert (whose own failure the source ignores) and the 200 response; a failing
debit returns the generic 500 without inserting a record. -/
def settleStage (env : WEnv) (amount fee balance : ℚ) (dest : Dest)
    (ref : Option String) : HttpResp × List Ev :=
  if env.walletUpdateOk then
    let newBal := balance - amount
    let destStr := destString env.paymentMethod dest
    let txr : TxRecord :=
      ⟨env.userId, "withdrawal", -amount,
       "Withdrawal to " ++ destStr ++ " (Fee: KES " ++ toString fee ++ ")",
       "completed", some (ref.getD ("WD" ++ toString env.now)),
       some fee, some (amount - fee)⟩
    (withdrawSuccessResp amount fee (amount - fee) destStr env.paymentMethod ref newBal,
     [Ev.walletUpdate newBal, Ev.txInsert txr])
  else
    (walletUpdateFailResp, [])

/-- Transfer initiation (lines 484-571) followed by settlement. -/
def transferStage (env : WEnv) (amount fee balance : ℚ) (dest : Dest)
    (_recipientCode : String) : HttpResp × List Ev :=
  let kobo := koboAmount (amount - fee)
  match env.transfer with
  | .timeout =>
    (mkErr 503 "Network timeout. Please check your connection and try again." (some "network_error"),
     [Ev.transferCall kobo])
  | .otherError =>
    (mkErr 503 "Payment service temporarily unavailable. Please try again." (some "service_unavailable"),
     [Ev.transferCall kobo])
  | .parseError =>
    (mkErr 503 "Payment service error. Please try again." (some "service_error"),
     [Ev.transferCall kobo])
  | .failed st msg code => (transferFailResp st msg code, [Ev.transferCall kobo])
  | .ok ref =>
    let r := settleStage env amount fee balance dest ref
    (r.1, Ev.transferCall kobo :: r.2)

/-- Recipient resolution (lines 258-472) followed by the transfer: the mobile
path fetches the catalog, matches a provider, tries the international phone
and falls back once to the local phone exactly when the first attempt failed
with an `account number is invalid` message; every other method goes down the
bank-recipient path. -/
def resolveAndTransfer (env : WEnv) (amount fee balance : ℚ) (dest : Dest) :
    HttpResp × List Ev :=
  if env.paymentMethod = "mpesa" ∨ env.paymentMethod = "airtel" then
    match banksDecide env.banksFetch with
    | .error r => (r, [Ev.banksFetchCall])
    | .ok banks =>
      match findProvider env.paymentMethod banks with
      | none => (providerNotAvailResp env.paymentMethod, [Ev.banksFetchCall])
      | some _provider =>
        let ph := preparePhones (dest.phone_number.getD "")
        let r1 := recipResult (env.recip ph.intl)
        if r1.ok then
          let r := transferStage env amount fee balance dest (r1.recipientCode.getD "")
          (r.1, Ev.banksFetchCall :: Ev.recipientCall ph.intl :: r.2)
        else if invalidAccountMsg r1 then
          let r2 := recipResult (env.recip ph.localFmt)
          if r2.ok then
            let r := transferStage env amount fee balance dest (r2.recipientCode.getD "")
            (r.1, Ev.banksFetchCall :: Ev.recipientCall ph.intl :: Ev.recipientCall ph.localFmt :: r.2)
          else
            (mobileRecipFailResp r2,
             [Ev.banksFetchCall, Ev.recipientCall ph.intl, Ev.recipientCall ph.localFmt])
        else
          (mobileRecipFailResp r1, [Ev.banksFetchCall, Ev.recipientCall ph.intl])
  else
    match bankRecipDecide env.bankRecip with
    | .error r => (r, [Ev.bankRecipientCall])
    | .ok rc =>
      let r := transferStage env amount fee balance dest rc
      (r.1, Ev.bankRecipientCall :: r.2)

/-- The Paystack balance pre-check (lines 201-256) followed by the rest of the
pipeline. -/
def withdrawAfterFee (env : WEnv) (amount fee balance : ℚ) (dest : Dest) :
    HttpResp × List Ev :=
  match precheckDecide (amount - fee) env.balanceCheck with
  | some r => (r, [Ev.balanceCheckCall])
  | none =>
    let r := resolveAndTransfer env amount fee balance dest
    (r.1, Ev.balanceCheckCall :: r.2)

/-- Wallet lookup, local balance check, secret check, fee computation and the
net-amount guard (lines 122-191), then the rest of the pipeline. -/
def withdrawAfterValidate (env : WEnv) (amount : ℚ) (dest : Dest) :
    HttpResp × List Ev :=
  match env.walletBalance with
  | none => (walletNotFoundResp, [Ev.walletRead])
  | some balance =>
    if balance < amount then (insufficientBalanceResp, [Ev.walletRead])
    else if env.secretConfigured = false then (notConfiguredResp, [Ev.walletRead])
    else
      let fee := calculateFee amount env.paymentMethod
      if amount - fee ≤ 0 then (amountTooLowResp fee, [Ev.walletRead])
      else
        let r := withdrawAfterFee env amount fee balance dest
        (r.1, Ev.walletRead :: r.2)

/-- The withdrawal serve handler (lines 58-649), from the parsed request body
onward: input validation (lines 86-120) and the rest of the pipeline. -/
def withdrawHandler (env : WEnv) : HttpResp × List Ev :=
  match env.amount with
  | none => (invalidAmountResp, [])
  | some amount =>
    if amount ≤ 0 then (invalidAmountResp, [])
    else
      match env.dest with
      | none => (destRequiredResp, [])
      | some dest =>
        if env.paymentMethod = "bank" then
          if dest.account_number = none ∨ dest.bank_name = none ∨ dest.account_name = none then
            (bankIncompleteResp, [])
          else withdrawAfterValidate env amount dest
        else
          if dest.phone_number = none then (phoneRequiredResp, [])
          else withdrawAfterValidate env amount dest

/-!
## Peer wallet-transfer handler (second serve handler of the file)
-/

/-- A row of `auth.users` as seen through `listUsers()`. -/
structure AuthUser where
  id : String
  email : Option String
deriving DecidableEq

/-- The case-insensitive email match of the recipient lookup
(`u.email?.toLowerCase() === recipientEmail.toLowerCase()`). -/
def emailMatches (recipientEmail : String) (u : AuthUser) : Bool :=
  match u.email with
  | some e => sToLower e = sToLower recipientEmail
  | none => false

/-- Balance of the first `user_central_wallets` row of a user (`.single()`);
`none` when the user has no row. -/
def lookupBal (ws : List (String × ℚ)) (uid : String) : Option ℚ :=
  (ws.find? fun p => p.1 = uid).map fun p => p.2

/-- The unconditional balance update `update({ balance }).eq('user_id', uid)`:
every row of the user receives the new balance. -/
def setBal (ws : List (String × ℚ)) (uid : String) (b : ℚ) : List (String × ℚ) :=
  ws.map fun p => if p.1 = uid then (p.1, b) else p

/-- Environment of one peer transfer request: the authenticated sender, the
parsed body, the `listUsers` result, the wallet table and the injected
outcomes of each database operation. -/
structure PeerEnv where
  senderId : String
  senderEmail : Option String
  recipientEmail : Option String
  amount : Option ℚ
  listUsersOk : Bool
  users : List AuthUser
  wallets : List (String × ℚ)
  senderReadOk : Bool
  deductOk : Bool
  recipReadOk : Bool
  addOk : Bool
  txOk : Bool

/-- Result of one peer transfer: the response, the trace of database
operations performed, and the wallet table afterwards. -/
structure PeerOut where
  resp : HttpResp
  events : List PEv
  wallets : List (String × ℚ)
deriving DecidableEq

def peerInvalidInputResp : HttpResp := mkPlainErr 400 "Invalid input parameters"

def peerFindFailResp : HttpResp := mkPlainErr 500 "Failed to find recipient"

def peerNotFoundResp : HttpResp := mkPlainErr 404 "Recipient not found"

def selfTransferResp : HttpResp := mkPlainErr 400 "Cannot send money to yourself"

def senderWalletResp : HttpResp := mkPlainErr 404 "Sender wallet not found"

/-- `{ success: false, error: 'Insufficient balance', balance }`. -/
def peerInsufficientResp (bal : ℚ) : HttpResp :=
  { mkErr 400 "Insufficient balance" none with balance := some bal }

def deductFailResp : HttpResp := mkPlainErr 500 "Failed to deduct from sender"

def creditFailResp : HttpResp := mkPlainErr 500 "Failed to credit recipient"

/-- The 200 body of a successful peer transfer. -/
def peerSuccessResp (remaining amountSent fee : ℚ) (recipientEmail : String) : HttpResp :=
  { emptyResp 200 with
    success := some true, message := some "Transfer successful",
    remainingBalance := some remaining, amountSent := some amountSent,
    fee := some fee, recipient := some recipientEmail }

/-- The sender debit record of a peer transfer; the `toFixed(2)` formatting of
the fee inside the description is abstracted as `toString`. -/
def peerDebitRecord (senderId recipientEmail : String) (amount fee : ℚ) : TxRecord :=
  ⟨senderId, "transfer", -(amount + fee),
   "Transfer to " ++ recipientEmail ++ " (Fee: KES " ++ toString fee ++ ")",
   "completed", none, none, none⟩

/-- The recipient credit record of a peer transfer. -/
def peerCreditRecord (recipientId : String) (senderEmail : Option String) (amount : ℚ) : TxRecord :=
  ⟨recipientId, "transfer", amount,
   "Transfer from " ++ senderEmail.getD "user",
   "completed", none, none, none⟩

/-- The peer wallet-transfer serve handler, from the parsed request body
onward: input check, fee, recipient lookup, self-transfer guard, sender
balance read and check, sender debit, recipient read and credit with rollback
of the sender debit when the credit fails, record insertion (failure ignored),
success response. -/
def walletTransferHandler (env : PeerEnv) : PeerOut :=
  match env.recipientEmail, env.amount with
  | some recipientEmail, some amount =>
    if amount ≤ 0 then ⟨peerInvalidInputResp, [], env.wallets⟩
    else
      let fee := transactionFee amount
      if env.listUsersOk = false then ⟨peerFindFailResp, [], env.wallets⟩
      else
        match env.users.find? (emailMatches recipientEmail) with
        | none => ⟨peerNotFoundResp, [], env.wallets⟩
        | some matchingUser =>
          if env.senderId = matchingUser.id then ⟨selfTransferResp, [], env.wallets⟩
          else
            match (if env.senderReadOk then lookupBal env.wallets env.senderId else none) with
            | none => ⟨senderWalletResp, [PEv.readWallet env.senderId], env.wallets⟩
            | some senderBal =>
              let totalAmount := amount + fee
              if senderBal < totalAmount then
                ⟨peerInsufficientResp senderBal, [PEv.readWallet env.senderId], env.wallets⟩
              else if env.deductOk = false then
                ⟨deductFailResp, [PEv.readWallet env.senderId], env.wallets⟩
              else
                let ws1 := setBal env.wallets env.senderId (senderBal - totalAmount)
                let recipBal := if env.recipReadOk then lookupBal ws1 matchingUser.id else none
                let recipientNewBalance := recipBal.getD 0 + amount
                if env.addOk = false then
                  ⟨creditFailResp,
                   [PEv.readWallet env.senderId,
                    PEv.updateWallet env.senderId (senderBal - totalAmount),
                    PEv.readWallet matchingUser.id,
                    PEv.updateWallet env.senderId senderBal],
                   setBal ws1 env.senderId senderBal⟩
                else
                  let ws2 := setBal ws1 matchingUser.id recipientNewBalance
                  ⟨peerSuccessResp (senderBal - totalAmount) amount fee recipientEmail,
                   [PEv.readWallet env.senderId,
                    PEv.updateWallet env.senderId (senderBal - totalAmount),
                    PEv.readWallet matchingUser.id,
                    PEv.updateWallet matchingUser.id recipientNewBalance] ++
                   (if env.txOk then
                      [PEv.insertTx
                        [peerDebitRecord env.senderId recipientEmail amount fee,
                         peerCreditRecord matchingUser.id env.senderEmail amount]]
                    else []),
                   ws2⟩
  | _, _ => ⟨peerInvalidInputResp, [], env.wallets⟩

/-!
## Specification predicates used by the claims
-/

/-- The trace initiates at most one transfer and, whenever it initiates one,
the response is the generic wallet-update failure and exactly one transfer was
initiated. -/
def TransferOnceGeneric (out : HttpResp × List Ev) : Prop :=
  out.2.countP Ev.isTransfer ≤ 1 ∧
  ((∃ k, Ev.transferCall k ∈ out.2) →
    out.1 = walletUpdateFailResp ∧ out.2.countP Ev.isTransfer = 1)

/-- Whenever the Paystack balance pre-check ran, the response is the
`network_error` timeout rejection. -/
def TimeoutRejects (out : HttpResp × List Ev) : Prop :=
  Ev.balanceCheckCall ∈ out.2 → out.1 = networkTimeoutResp

/-- The recipient-creation attempts of the trace, against the two phone forms
prepared from the given destination: either none happened, or exactly the
international form was tried and the fallback condition did not hold of its
outcome, or exactly the international then the local form were tried and the
fallback condition held. -/
def RecipAttemptsSpec (env : WEnv) (dest : Dest) (out : HttpResp × List Ev) : Prop :=
  recipPhones out.2 = [] ∨
  (recipPhones out.2 = [(preparePhones (dest.phone_number.getD "")).intl] ∧
    invalidAccountMsg (recipResult (env.recip (preparePhones (dest.phone_number.getD "")).intl)) = false) ∨
  (recipPhones out.2 =
     [(preparePhones (dest.phone_number.getD "")).intl,
      (preparePhones (dest.phone_number.getD "")).localFmt] ∧
    invalidAccountMsg (recipResult (env.recip (preparePhones (dest.phone_number.getD "")).intl)) = true)

/-!
## Concrete scenario environments
-/

/-- Mobile-money destination used by the concrete withdrawal scenarios. -/
def mobDest : Dest := ⟨some "0712345678", none, none, none⟩

/-- Bank destination used by the concrete withdrawal scenarios. -/
def bankDest : Dest := ⟨none, some "0123456789", some "044", some "Jane Doe"⟩

/-- A fully successful mpesa withdrawal of 1000 from a wallet holding 5000:
sufficient provider balance, a catalog containing M-PESA, recipient creation
succeeding at once, transfer succeeding, wallet debit succeeding. -/
def okMobileEnv : WEnv :=
  ⟨"user0001", some "user@example.com", some 1000, "mpesa", some mobDest,
   some 5000, true, .ok true 20000000, .ok [⟨"M-PESA", "mpesa", "MPESA"⟩],
   (fun _ => .ok "RCP_1"), .ok "RCP_B", .ok (some "TRF_1"), true, 1700000000000⟩

/-- The same scenario except that the Paystack balance pre-check times out. -/
def timeoutPrecheckEnv : WEnv := { okMobileEnv with balanceCheck := .timeout }

/-- The same scenario except that the wallet debit after the successful
transfer fails. -/
def debitFailEnv : WEnv := { okMobileEnv with walletUpdateOk := false }

/-- The same scenario except that recipient creation rejects the international
phone form as an invalid account number and accepts the local form. -/
def fallbackRecipEnv : WEnv :=
  { okMobileEnv with
    recip := fun p =>
      if p = "254712345678" then .rejected 400 (some "Account number is invalid") none
      else .ok "RCP_2" }

/-- A bank withdrawal of 10 from a wallet holding 100: the fee (25) eats the
whole amount, so the request must be rejected as `amount_too_low`. -/
def lowBankEnv : WEnv :=
  ⟨"user0001", none, some 10, "bank", some bankDest,
   some 100, true, .ok true 20000000, .ok [],
   (fun _ => .otherError), .ok "RCP_B", .ok none, true, 0⟩

/-- A fully successful peer transfer of 100 from alice (balance 500) to bob
(balance 50). -/
def okPeerEnv : PeerEnv :=
  ⟨"alice", some "alice@example.com", some "bob@example.com", some 100, true,
   [⟨"alice", some "alice@example.com"⟩, ⟨"bob", some "bob@example.com"⟩],
   [("alice", 500), ("bob", 50)], true, true, true, true, true⟩

/-- A peer transfer of 200 from alice (balance 1000) whose recipient credit
fails, exercising the rollback of the sender debit. -/
def rollbackPeerEnv : PeerEnv :=
  { okPeerEnv with amount := some 200, wallets := [("alice", 1000), ("bob", 300)], addOk := false }

/-- A peer transfer whose recipient email resolves, case-insensitively, to the
sender. -/
def selfPeerEnv : PeerEnv := { okPeerEnv with recipientEmail := some "Alice@Example.com" }

/-- An operation failing at every attempt, attempt `i` throwing `i`. -/
def alwaysFailOp : Nat → Except Nat Nat := fun i => .error i

/-!
## Shared helper lemmas
-/

/-- Clamping between a lower bound 10 and an upper bound 100 can be written in
either nesting order. -/
lemma clamp_comm (x : ℚ) : min (max x 10) 100 = max (min x 100) 10 := by
  rcases le_total x 10 with h | h <;> rcases le_total x 100 with h2 | h2 <;>
    simp [min_def, max_def] <;> split_ifs <;> linarith

/-- `calculateFee` is nonnegative. -/
lemma calculateFee_nonneg (a : ℚ) (m : String) : 0 ≤ calculateFee a m := by
  unfold calculateFee
  by_cases h1 : m = "mpesa"
  · rw [if_pos h1]
    split_ifs <;>
      first
        | norm_num
        | exact le_trans (by norm_num) (le_max_left _ _)
  · rw [if_neg h1]
    by_cases h2 : m = "airtel"
    · rw [if_pos h2]
      split_ifs <;>
        first
          | norm_num
          | exact le_trans (by norm_num) (le_max_left _ _)
    · rw [if_neg h2]
      by_cases h3 : m = "bank"
      · rw [if_pos h3]
        exact le_trans (by norm_num) (le_max_left _ _)
      · rw [if_neg h3]

set_option maxHeartbeats 1000000 in
/-- `calculateFee` is monotone in the amount, for every channel. -/
lemma calculateFee_mono (m : String) (a b : ℚ) (hab : a ≤ b) :
    calculateFee a m ≤ calculateFee b m := by
  have hfl : ∀ c : ℚ, 0 < c →
      ((Int.floor (a * c) : ℤ) : ℚ) ≤ ((Int.floor (b * c) : ℤ) : ℚ) := by
    intro c hc
    exact_mod_cast Int.floor_le_floor (by nlinarith)
  unfold calculateFee
  by_cases h1 : m = "mpesa"
  · rw [if_pos h1, if_pos h1]
    split_ifs <;>
      first
        | linarith
        | exact max_le_max le_rfl (hfl _ (by norm_num))
        | exact le_trans (by norm_num) (le_max_left _ _)
  · rw [if_neg h1, if_neg h1]
    by_cases h2 : m = "airtel"
    · rw [if_pos h2, if_pos h2]
      split_ifs <;>
        first
          | linarith
          | exact max_le_max le_rfl (hfl _ (by norm_num))
          | exact le_trans (by norm_num) (le_max_left _ _)
    · rw [if_neg h2, if_neg h2]
      by_cases h3 : m = "bank"
      · rw [if_pos h3, if_pos h3]
        exact max_le_max le_rfl (hfl _ (by norm_num))
      · rw [if_neg h3, if_neg h3]

/-- Writing a balance for a user present in the table makes their looked-up
balance that value. -/
lemma lookupBal_setBal_self (ws : List (String × ℚ)) (u : String) (b x : ℚ)
    (h : lookupBal ws u = some x) : lookupBal (setBal ws u b) u = some b := by
  induction ws with
  | nil => simp [lookupBal] at h
  | cons p t ih =>
    by_cases hp : p.1 = u
    · simp [lookupBal, setBal, List.find?_cons, hp]
    · simp only [lookupBal, setBal, List.map_cons, if_neg hp] at *
      rw [List.find?_cons_of_neg _ (by simpa using hp)] at h ⊢
      exact ih h

/-!
## Claim C3
-/

/-- Claim C3 counterexample: the claim asserts that a withdrawal of 1000 via
mpesa carries a fee of 30 (net 970), but `calculateFee` places 1000 in the
`amt <= 2500` tier, whose fee is 15, not 30. -/
theorem c3_counterexample :
    calculateFee 1000 "mpesa" = 15 ∧ calculateFee 1000 "mpesa" ≠ 30 := by
  constructor <;> norm_num [calculateFee]

/-- Claim C3 amended: for a withdrawal of amount 1000 on mpesa the fee is 15
and the net amount is 985; the external transfer is initiated with the net
amount (98500 kobo), on success the wallet balance decreases by exactly 1000
(5000 to 4000), and one TransactionRecord is appended with amount -1000,
metadata fee 15 and metadata net amount 985. -/
theorem c3_withdrawal_1000_mpesa :
    withdrawHandler okMobileEnv =
      (withdrawSuccessResp 1000 15 985 "0712345678" "mpesa" (some "TRF_1") 4000,
       [Ev.walletRead, Ev.balanceCheckCall, Ev.banksFetchCall, Ev.recipientCall "254712345678",
        Ev.transferCall 98500, Ev.walletUpdate 4000,
        Ev.txInsert ⟨"user0001", "withdrawal", -1000, "Withdrawal to 0712345678 (Fee: KES 15)",
          "completed", some "TRF_1", some 15, some 985⟩]) := by
  have hph : preparePhones "0712345678" = ⟨"254712345678", "0712345678"⟩ := by decide
  have hfp : findProvider "mpesa" [⟨"M-PESA", "mpesa", "MPESA"⟩] =
      some ⟨"M-PESA", "mpesa", "MPESA"⟩ := by decide
  have hmb : (("mpesa" : String) = "bank") = False := by decide
  have hsn : ((some "0712345678" : Option String) = none) = False := by decide
  have hts : toString (15 : ℚ) = "15" := by decide
  have hap : "Withdrawal to " ++ "0712345678" ++ " (Fee: KES " ++ "15" ++ ")" =
      "Withdrawal to 0712345678 (Fee: KES 15)" := by decide
  norm_num [withdrawHandler, okMobileEnv, withdrawAfterValidate, withdrawAfterFee,
    resolveAndTransfer, transferStage, settleStage, calculateFee, precheckDecide,
    banksDecide, recipResult, invalidAccountMsg, koboAmount, destString,
    withdrawSuccessResp, mobDest, hph, hfp, hmb, hsn, hts, hap, emptyResp, mkErr, mkPlainErr]

/-!
## Claim C8
-/

/-- Claim C8: for every amount `a > 0` and channel among mpesa, airtel and
bank, the fee is nonnegative, and for amounts in the same tier of the
schedule of that channel the fee is monotonically non-decreasing (the proof
uses monotonicity over the whole range, which subsumes each tier). -/
theorem c8_fee_nonneg_monotone (m : String) (a b : ℚ)
    (hm : m = "mpesa" ∨ m = "airtel" ∨ m = "bank")
    (ha : 0 < a) (hb : 0 < b) (hab : a ≤ b) (ht : feeTier m a = feeTier m b) :
    0 ≤ calculateFee a m ∧ calculateFee a m ≤ calculateFee b m :=
  ⟨calculateFee_nonneg a m, calculateFee_mono m a b hab⟩

/-- Claim C8 witness: 200 and 300 lie in the same mpesa tier; their fees are
nonnegative and ordered. -/
theorem c8_witness :
    0 ≤ calculateFee 200 "mpesa" ∧ calculateFee 200 "mpesa" ≤ calculateFee 300 "mpesa" :=
  c8_fee_nonneg_monotone "mpesa" 200 300 (Or.inl rfl) (by norm_num) (by norm_num)
    (by norm_num) (by decide)

/-!
## Claim C9
-/

/-- Claim C9: the peer transfer fee equals `max (min (amount * 1 percent) 100) 10`,
and for sender balance 500 and amount 100 the fee is 10: the sender is debited
110 in total (500 to 390), the recipient is credited exactly 100 (50 to 150),
and two TransactionRecords are written, the sender debit and the recipient
credit. -/
theorem c9_peer_fee_and_example :
    (∀ a : ℚ, 0 < a → transactionFee a = max (min (a * (1 / 100)) 100) 10) ∧
    walletTransferHandler okPeerEnv =
      ⟨peerSuccessResp 390 100 10 "bob@example.com",
       [PEv.readWallet "alice", PEv.updateWallet "alice" 390, PEv.readWallet "bob",
        PEv.updateWallet "bob" 150,
        PEv.insertTx
          [⟨"alice", "transfer", -110, "Transfer to bob@example.com (Fee: KES 10)",
            "completed", none, none, none⟩,
           ⟨"bob", "transfer", 100, "Transfer from alice@example.com",
            "completed", none, none, none⟩]],
       [("alice", 390), ("bob", 150)]⟩ := by
  constructor
  · intro a _
    exact clamp_comm _
  · have hem1 : emailMatches "bob@example.com" ⟨"alice", some "alice@example.com"⟩ = false := by
      decide
    have hem2 : emailMatches "bob@example.com" ⟨"bob", some "bob@example.com"⟩ = true := by
      decide
    have hts : toString (10 : ℚ) = "10" := by decide
    have hab : (("alice" : String) = "bob") = False := by decide
    have hba : (("bob" : String) = "alice") = False := by decide
    have hdab : decide (("alice" : String) = "bob") = false := by decide
    have hdba : decide (("bob" : String) = "alice") = false := by decide
    have hdaa : decide (("alice" : String) = "alice") = true := by decide
    have hdbb : decide (("bob" : String) = "bob") = true := by decide
    have hap : "Transfer to " ++ "bob@example.com" ++ " (Fee: KES " ++ "10" ++ ")" =
        "Transfer to bob@example.com (Fee: KES 10)" := by decide
    have hap2 : "Transfer from " ++ "alice@example.com" = "Transfer from alice@example.com" := by
      decide
    norm_num [walletTransferHandler, okPeerEnv, transactionFee, lookupBal, setBal,
      peerSuccessResp, peerDebitRecord, peerCreditRecord, hem1, hem2, hts, hab, hba,
      hdab, hdba, hdaa, hdbb, hap, hap2, emptyResp, mkErr, mkPlainErr, List.find?]

/-- Claim C9 witness: the fee formula of the claim, instantiated at amount 100. -/
theorem c9_witness :
    transactionFee 100 = max (min ((100 : ℚ) * (1 / 100)) 100) 10 :=
  c9_peer_fee_and_example.1 100 (by norm_num)

/-!
## Claim C10
-/

/-- Claim C10: a peer transfer whose recipient identifier resolves, by the
case-insensitive email match, to the caller is rejected with 400
`Cannot send money to yourself`; no wallet is read or mutated and no
TransactionRecord is written (empty event trace, wallet table unchanged). -/
theorem c10_self_transfer_guard (env : PeerEnv) (recipientEmail : String) (amount : ℚ)
    (mu : AuthUser)
    (hre : env.recipientEmail = some recipientEmail)
    (hamt : env.amount = some amount) (hpos : 0 < amount)
    (hlist : env.listUsersOk = true)
    (hfind : env.users.find? (emailMatches recipientEmail) = some mu)
    (hself : env.senderId = mu.id) :
    walletTransferHandler env = ⟨selfTransferResp, [], env.wallets⟩ := by
  simp [walletTransferHandler, hre, hamt, hlist, hfind, hself, not_le.mpr hpos]

/-- Claim C10 witness: alice sending to `Alice@Example.com` is rejected before
any wallet operation. -/
theorem c10_witness :
    walletTransferHandler selfPeerEnv = ⟨selfTransferResp, [], [("alice", 500), ("bob", 50)]⟩ :=
  c10_self_transfer_guard selfPeerEnv "Alice@Example.com" 100
    ⟨"alice", some "alice@example.com"⟩ rfl rfl (by norm_num) rfl (by decide) rfl

/-!
## Claim C4
-/

/-- Claim C4: in a peer transfer in which the sender was debited and crediting
the recipient fails, the sender is restored to the exact pre-debit balance (the
rollback update is the last event before the error response), and the operation
reports failure with 500 `Failed to credit recipient`. -/
theorem c4_rollback_on_credit_failure (env : PeerEnv) (recipientEmail : String)
    (amount senderBal : ℚ) (mu : AuthUser)
    (hre : env.recipientEmail = some recipientEmail)
    (hamt : env.amount = some amount) (hpos : 0 < amount)
    (hlist : env.listUsersOk = true)
    (hfind : env.users.find? (emailMatches recipientEmail) = some mu)
    (hself : env.senderId ≠ mu.id)
    (hread : env.senderReadOk = true)
    (hbal : lookupBal env.wallets env.senderId = some senderBal)
    (hsuff : ¬ senderBal < amount + transactionFee amount)
    (hded : env.deductOk = true) (hadd : env.addOk = false) :
    (walletTransferHandler env).resp = creditFailResp ∧
    (walletTransferHandler env).resp.success ≠ some true ∧
    lookupBal (walletTransferHandler env).wallets env.senderId = some senderBal ∧
    (walletTransferHandler env).events =
      [PEv.readWallet env.senderId,
       PEv.updateWallet env.senderId (senderBal - (amount + transactionFee amount)),
       PEv.readWallet mu.id,
       PEv.updateWallet env.senderId senderBal] := by
  have hw : walletTransferHandler env =
      ⟨creditFailResp,
       [PEv.readWallet env.senderId,
        PEv.updateWallet env.senderId (senderBal - (amount + transactionFee amount)),
        PEv.readWallet mu.id,
        PEv.updateWallet env.senderId senderBal],
       setBal (setBal env.wallets env.senderId (senderBal - (amount + transactionFee amount)))
         env.senderId senderBal⟩ := by
    simp [walletTransferHandler, hre, hamt, hlist, hfind, hself, hread, hbal, hsuff,
      hded, hadd, not_le.mpr hpos]
  refine ⟨by rw [hw], by rw [hw]; simp [creditFailResp, mkPlainErr, emptyResp], ?_, by rw [hw]⟩
  rw [hw]
  exact lookupBal_setBal_self _ _ _ _
    (lookupBal_setBal_self _ _ _ _ hbal)

/-- Claim C4 witness: sender balance 1000, amount 200, fee 10; debit to 790
succeeds, credit fails, sender balance is 1000 again. -/
theorem c4_witness :
    (walletTransferHandler rollbackPeerEnv).resp = creditFailResp ∧
    (walletTransferHandler rollbackPeerEnv).resp.success ≠ some true ∧
    lookupBal (walletTransferHandler rollbackPeerEnv).wallets "alice" = some 1000 ∧
    (walletTransferHandler rollbackPeerEnv).events =
      [PEv.readWallet "alice", PEv.updateWallet "alice" 790, PEv.readWallet "bob",
       PEv.updateWallet "alice" 1000] := by
  have h := c4_rollback_on_credit_failure rollbackPeerEnv "bob@example.com" 200 1000
    ⟨"bob", some "bob@example.com"⟩ rfl rfl (by norm_num) rfl (by decide)
    (by decide) rfl (by decide) (by norm_num [transactionFee]) rfl rfl
  refine ⟨h.1, h.2.1, ?_, ?_⟩
  · exact h.2.2.1
  · have he := h.2.2.2
    rw [he]
    norm_num [transactionFee, rollbackPeerEnv, okPeerEnv]

/-!
## Claim C6
-/

/-- Characterization of the retry loop started at position `i` with `fuel`
iterations remaining: at least one and at most `fuel` attempts are made, every
attempt before the last one failed, a succeeding last attempt is returned, a
failing last attempt means the fuel was exhausted and the last error is
surfaced, and the delays slept are `d * 2 ^ (i + j)` between attempts
`i + j` and `i + j + 1`. -/
lemma retryAux_spec (fn : Nat → Except ε α) (d : ℚ) :
    ∀ fuel i, 1 ≤ fuel →
      1 ≤ (retryAux fn d i fuel).attempts ∧
      (retryAux fn d i fuel).attempts ≤ fuel ∧
      (∀ j, i ≤ j → j + 1 < i + (retryAux fn d i fuel).attempts → (fn j).isOk = false) ∧
      (∀ a, fn (i + (retryAux fn d i fuel).attempts - 1) = .ok a →
        (retryAux fn d i fuel).result = .ok a) ∧
      ((fn (i + (retryAux fn d i fuel).attempts - 1)).isOk = false →
        (retryAux fn d i fuel).attempts = fuel ∧
        ∀ e, fn (i + fuel - 1) = .error e → (retryAux fn d i fuel).result = .error (some e)) ∧
      (retryAux fn d i fuel).delays =
        (List.range ((retryAux fn d i fuel).attempts - 1)).map (fun j => d * 2 ^ (i + j)) := by
  intro fuel
  induction fuel with
  | zero => intro i h; omega
  | succ f ih =>
    intro i _
    cases f with
    | zero =>
      cases h : fn i with
      | ok a =>
        refine ⟨by simp [retryAux, h], by simp [retryAux, h], ?_, ?_, ?_, by simp [retryAux, h]⟩
        · intro j hj hj2
          simp [retryAux, h] at hj2
          omega
        · intro a2 ha2
          simp only [retryAux, h, Nat.add_sub_cancel] at ha2 ⊢
          simp_all
        · intro hko
          simp only [retryAux, h, Nat.add_sub_cancel] at hko
          simp [Except.isOk, Except.toBool] at hko
      | error e =>
        refine ⟨by simp [retryAux, h], by simp [retryAux, h], ?_, ?_, ?_, by simp [retryAux, h]⟩
        · intro j hj hj2
          simp [retryAux, h] at hj2
          omega
        · intro a2 ha2
          simp only [retryAux, h, Nat.add_sub_cancel] at ha2
          simp at ha2
        · intro _
          refine ⟨by simp [retryAux, h], ?_⟩
          intro e2 he2
          simp only [Nat.add_sub_cancel] at he2
          rw [h] at he2
          simp only [Except.error.injEq] at he2
          simp [retryAux, h, he2]
    | succ f2 =>
      cases h : fn i with
      | ok a =>
        refine ⟨by simp [retryAux, h], by simp [retryAux, h], ?_, ?_, ?_, by simp [retryAux, h]⟩
        · intro j hj hj2
          simp [retryAux, h] at hj2
          omega
        · intro a2 ha2
          simp only [retryAux, h, Nat.add_sub_cancel] at ha2 ⊢
          simp_all
        · intro hko
          simp only [retryAux, h, Nat.add_sub_cancel] at hko
          simp [Except.isOk, Except.toBool] at hko
      | error e =>
        have hrec := ih (i + 1) (by omega)
        obtain ⟨h1, h2, h3, h4, h5, h6⟩ := hrec
        have hval : retryAux fn d i (f2 + 1 + 1) =
            ⟨(retryAux fn d (i + 1) (f2 + 1)).result,
             (retryAux fn d (i + 1) (f2 + 1)).attempts + 1,
             (d * 2 ^ i) :: (retryAux fn d (i + 1) (f2 + 1)).delays⟩ := by
          conv_lhs => rw [show f2 + 1 + 1 = f2 + 2 from rfl, retryAux]
          rw [h]
        rw [hval]
        set r := retryAux fn d (i + 1) (f2 + 1) with hr
        refine ⟨by simp, by simpa using h2, ?_, ?_, ?_, ?_⟩
        · intro j hj hj2
          simp only at hj2
          rcases Nat.eq_or_lt_of_le hj with hji | hji
          · rw [← hji, h]
            simp [Except.isOk, Except.toBool]
          · exact h3 j hji (by omega)
        · intro a2 ha2
          simp only at ha2 ⊢
          have : i + (r.attempts + 1) - 1 = i + 1 + r.attempts - 1 := by omega
          rw [this] at ha2
          exact h4 a2 ha2
        · intro hko
          simp only at hko ⊢
          have heq : i + (r.attempts + 1) - 1 = i + 1 + r.attempts - 1 := by omega
          rw [heq] at hko
          obtain ⟨h5a, h5b⟩ := h5 hko
          refine ⟨by omega, ?_⟩
          intro e2 he2
          have : i + 1 + (f2 + 1) - 1 = i + (f2 + 1 + 1) - 1 := by omega
          rw [this] at h5b
          exact h5b e2 he2
        · simp only
          rw [h6]
          have hA : r.attempts - 1 + 1 = r.attempts := by omega
          have : (List.range (r.attempts + 1 - 1)).map (fun j => d * 2 ^ (i + j)) =
              (List.range (r.attempts - 1 + 1)).map (fun j => d * 2 ^ (i + j)) := by
            rw [hA]
            simp
          rw [this, List.range_succ_eq_map, List.map_cons, List.map_map]
          refine congrArg₂ _ (by simp) ?_
          refine List.map_congr_left ?_
          intro j _
          simp only [Function.comp]
          have : i + (j + 1) = i + 1 + j := by omega
          rw [this]

/-- Claim C6 amended: `retryWithBackoff` makes between 1 and `maxRetries`
attempts, every attempt before the last failed, the result of a succeeding
last attempt is returned, if the last attempt made also failed then all
`maxRetries` attempts were used and the error of the last attempt is surfaced,
and the `j`-th delay slept (between attempts `j` and `j + 1`) is
`initialDelay * 2 ^ j` - equivalently, the delay before attempt `i` is
`initialDelay * 2 ^ (i - 1)` for `i ≥ 1` and there is no delay before
attempt 0, not `initialDelay * 2 ^ i` as the claim states. -/
theorem c6_retry_contract (fn : Nat → Except ε α) (m : Nat) (d : ℚ) (hm : 1 ≤ m) :
    1 ≤ (retryWithBackoff fn m d).attempts ∧
    (retryWithBackoff fn m d).attempts ≤ m ∧
    (∀ j, j + 1 < (retryWithBackoff fn m d).attempts → (fn j).isOk = false) ∧
    (∀ a, fn ((retryWithBackoff fn m d).attempts - 1) = .ok a →
      (retryWithBackoff fn m d).result = .ok a) ∧
    ((fn ((retryWithBackoff fn m d).attempts - 1)).isOk = false →
      (retryWithBackoff fn m d).attempts = m ∧
      ∀ e, fn (m - 1) = .error e → (retryWithBackoff fn m d).result = .error (some e)) ∧
    (retryWithBackoff fn m d).delays =
      (List.range ((retryWithBackoff fn m d).attempts - 1)).map (fun j => d * 2 ^ j) := by
  have h := retryAux_spec fn d m 0 hm
  simpa [retryWithBackoff] using h

/-- Claim C6 counterexample: with every attempt failing, `maxRetries = 3` and
`initialDelay = 1000`, the executor makes 3 attempts but sleeps only twice,
`[1000, 2000]`: the delay that precedes attempt 1 is `1000 = initialDelay * 2 ^ 0`,
not `initialDelay * 2 ^ 1 = 2000` as the formula of the claim gives, and no
delay precedes attempt 0 although the formula of the claim gives
`initialDelay * 2 ^ 0 = 1000` for it. -/
theorem c6_counterexample :
    (retryWithBackoff alwaysFailOp 3 1000).attempts = 3 ∧
    (retryWithBackoff alwaysFailOp 3 1000).delays = [1000, 2000] ∧
    (retryWithBackoff alwaysFailOp 3 1000).delays.getD 0 0 ≠ (1000 : ℚ) * 2 ^ 1 ∧
    (retryWithBackoff alwaysFailOp 3 1000).delays.length ≠ 3 := by
  refine ⟨?_, ?_, ?_, ?_⟩ <;>
    norm_num [retryWithBackoff, retryAux, alwaysFailOp]

/-- Claim C6 witness: the amended contract instantiated for three failing
attempts with initial delay 1000. -/
theorem c6_witness :
    1 ≤ (retryWithBackoff alwaysFailOp 3 1000).attempts ∧
    (retryWithBackoff alwaysFailOp 3 1000).delays =
      (List.range ((retryWithBackoff alwaysFailOp 3 1000).attempts - 1)).map
        (fun j => (1000 : ℚ) * 2 ^ j) := by
  have h := c6_retry_contract alwaysFailOp 3 1000 (by norm_num)
  exact ⟨h.1, h.2.2.2.2.2⟩

/-!
## Claim C5
-/

/-- Under the validation hypotheses the withdrawal handler reduces to the
post-validation pipeline. -/
lemma withdrawHandler_eq_afterValidate (env : WEnv) (amount : ℚ) (dest : Dest)
    (hamt : env.amount = some amount) (hpos : 0 < amount)
    (hdest : env.dest = some dest)
    (hfields : if env.paymentMethod = "bank"
      then dest.account_number ≠ none ∧ dest.bank_name ≠ none ∧ dest.account_name ≠ none
      else dest.phone_number ≠ none) :
    withdrawHandler env = withdrawAfterValidate env amount dest := by
  by_cases hb : env.paymentMethod = "bank"
  · rw [if_pos hb] at hfields
    simp [withdrawHandler, hamt, hdest, hb, not_le.mpr hpos,
      hfields.1, hfields.2.1, hfields.2.2]
  · rw [if_neg hb] at hfields
    simp [withdrawHandler, hamt, hdest, hb, not_le.mpr hpos, hfields]

/-- The pre-check stage always emits its provider call into the trace. -/
lemma balanceCheck_mem_afterFee (env : WEnv) (a f b : ℚ) (d : Dest) :
    Ev.balanceCheckCall ∈ (withdrawAfterFee env a f b d).2 := by
  unfold withdrawAfterFee
  cases precheckDecide (a - f) env.balanceCheck <;> simp

/-- Claim C5: for a validated withdrawal with sufficient balance and the
payment secret configured, the request is rejected with the `amount_too_low`
response (status 400, reporting the minimum viable amount `fee + 1`) with no
provider call made, exactly when `fee >= amount`; when `fee < amount` the
pipeline proceeds to the provider balance pre-check; and being rejected with
code `amount_too_low` before any provider call is equivalent to
`fee >= amount`. -/
theorem c5_amount_too_low_guard (env : WEnv) (amount balance : ℚ) (dest : Dest)
    (hamt : env.amount = some amount) (hpos : 0 < amount)
    (hdest : env.dest = some dest)
    (hfields : if env.paymentMethod = "bank"
      then dest.account_number ≠ none ∧ dest.bank_name ≠ none ∧ dest.account_name ≠ none
      else dest.phone_number ≠ none)
    (hw : env.walletBalance = some balance)
    (hbal : ¬ balance < amount) (hsec : env.secretConfigured = true) :
    (amount ≤ calculateFee amount env.paymentMethod →
      (withdrawHandler env).1 = amountTooLowResp (calculateFee amount env.paymentMethod) ∧
      (withdrawHandler env).1.status = 400 ∧
      (withdrawHandler env).1.minViable = some (calculateFee amount env.paymentMethod + 1) ∧
      (withdrawHandler env).2.countP Ev.isProviderCall = 0) ∧
    (calculateFee amount env.paymentMethod < amount →
      Ev.balanceCheckCall ∈ (withdrawHandler env).2) ∧
    (((withdrawHandler env).1.code = some "amount_too_low" ∧
        (withdrawHandler env).2.countP Ev.isProviderCall = 0) ↔
      amount ≤ calculateFee amount env.paymentMethod) := by
  rw [withdrawHandler_eq_afterValidate env amount dest hamt hpos hdest hfields]
  by_cases hfee : amount - calculateFee amount env.paymentMethod ≤ 0
  · have h1 : withdrawAfterValidate env amount dest =
        (amountTooLowResp (calculateFee amount env.paymentMethod), [Ev.walletRead]) := by
      simp [withdrawAfterValidate, hw, hbal, hsec, hfee]
    rw [h1]
    have hle : amount ≤ calculateFee amount env.paymentMethod := by linarith
    refine ⟨fun _ => ⟨rfl, rfl, rfl, by simp [Ev.isProviderCall]⟩, fun hlt => absurd hle (by linarith), ?_⟩
    exact ⟨fun _ => hle, fun _ => ⟨rfl, by simp [Ev.isProviderCall]⟩⟩
  · have h2 : withdrawAfterValidate env amount dest =
        ((withdrawAfterFee env amount (calculateFee amount env.paymentMethod) balance dest).1,
         Ev.walletRead ::
           (withdrawAfterFee env amount (calculateFee amount env.paymentMethod) balance dest).2) := by
      simp [withdrawAfterValidate, hw, hbal, hsec, hfee]
    rw [h2]
    have hlt : calculateFee amount env.paymentMethod < amount := by linarith
    have hmem : Ev.balanceCheckCall ∈
        Ev.walletRead ::
          (withdrawAfterFee env amount (calculateFee amount env.paymentMethod) balance dest).2 :=
      List.mem_cons_of_mem _ (balanceCheck_mem_afterFee env amount _ balance dest)
    refine ⟨fun hge => absurd hge (by linarith), fun _ => hmem, ?_⟩
    constructor
    · rintro ⟨_, hcount⟩
      exfalso
      have := List.countP_eq_zero.mp hcount _ hmem
      simp [Ev.isProviderCall] at this
    · intro hge
      exact absurd hge (by linarith)

/-- Claim C5 witness: a bank withdrawal of 10 (fee 25) against balance 100 is
rejected as `amount_too_low`, reports minimum viable amount 26 and makes no
provider call. -/
theorem c5_witness :
    (withdrawHandler lowBankEnv).1 = amountTooLowResp (calculateFee 10 "bank") ∧
    (withdrawHandler lowBankEnv).1.minViable = some (calculateFee 10 "bank" + 1) ∧
    (withdrawHandler lowBankEnv).2.countP Ev.isProviderCall = 0 := by
  have h := c5_amount_too_low_guard lowBankEnv 10 100 bankDest rfl (by norm_num) rfl
    (by simp [lowBankEnv, bankDest]) rfl (by norm_num) rfl
  have hbm : (("bank" : String) = "mpesa") = False := by decide
  have hba2 : (("bank" : String) = "airtel") = False := by decide
  have hbb : (("bank" : String) = "bank") = True := by decide
  have hge : (10 : ℚ) ≤ calculateFee 10 "bank" := by
    norm_num [calculateFee, hbm, hba2, hbb]
  exact ⟨(h.1 hge).1, (h.1 hge).2.2.1, (h.1 hge).2.2.2⟩

/-!
## Claim C1
-/

/-- With a timed-out pre-check the pipeline after the fee guard rejects. -/
lemma afterFee_timeout (env : WEnv) (a f b : ℚ) (d : Dest)
    (hbc : env.balanceCheck = .timeout) :
    withdrawAfterFee env a f b d = (networkTimeoutResp, [Ev.balanceCheckCall]) := by
  simp [withdrawAfterFee, precheckDecide, hbc]

/-- With a timed-out pre-check, whenever the pre-check ran the response is the
timeout rejection (post-validation pipeline). -/
lemma timeoutRejects_afterValidate (env : WEnv) (a : ℚ) (d : Dest)
    (hbc : env.balanceCheck = .timeout) :
    TimeoutRejects (withdrawAfterValidate env a d) := by
  unfold TimeoutRejects withdrawAfterValidate
  cases hw : env.walletBalance with
  | none => simp
  | some b =>
    by_cases h1 : b < a
    · simp [h1]
    · by_cases h2 : env.secretConfigured = false
      · simp [h1, h2]
      · by_cases h3 : a - calculateFee a env.paymentMethod ≤ 0
        · simp [h1, h2, h3]
        · simp [h1, h2, h3,
            afterFee_timeout env a (calculateFee a env.paymentMethod) b d hbc]

/-- With a timed-out pre-check, whenever the pre-check ran the response of the
withdrawal handler is the timeout rejection. -/
lemma timeoutRejects_handler (env : WEnv) (hbc : env.balanceCheck = .timeout) :
    TimeoutRejects (withdrawHandler env) := by
  unfold withdrawHandler
  cases ha : env.amount with
  | none => intro hmem; simp at hmem
  | some amount =>
    by_cases h1 : amount ≤ 0
    · simp only [if_pos h1]
      intro hmem; simp at hmem
    · simp only [if_neg h1]
      cases hd : env.dest with
      | none => intro hmem; simp at hmem
      | some dest =>
        by_cases h2 : env.paymentMethod = "bank"
        · simp only [if_pos h2]
          by_cases h3 : dest.account_number = none ∨ dest.bank_name = none ∨
              dest.account_name = none
          · simp only [if_pos h3]
            intro hmem; simp at hmem
          · simp only [if_neg h3]
            exact timeoutRejects_afterValidate env amount dest hbc
        · simp only [if_neg h2]
          by_cases h4 : dest.phone_number = none
          · simp only [if_pos h4]
            intro hmem; simp at hmem
          · simp only [if_neg h4]
            exact timeoutRejects_afterValidate env amount dest hbc

/-- Claim C1 amended: a pre-check answering with a non-OK response, or failing
with any thrown error other than a network timeout, leaves the outcome of the
withdrawal exactly as if the pre-check had answered OK without usable balance
data (the pipeline proceeds); but a pre-check that times out rejects the
withdrawal with the 503 `network_error` response whenever the pre-check ran. -/
theorem c1_precheck_failure_policy (env : WEnv) :
    withdrawHandler { env with balanceCheck := .notOk } =
      withdrawHandler { env with balanceCheck := .ok false 0 } ∧
    withdrawHandler { env with balanceCheck := .otherError } =
      withdrawHandler { env with balanceCheck := .ok false 0 } ∧
    (Ev.balanceCheckCall ∈ (withdrawHandler { env with balanceCheck := .timeout }).2 →
      (withdrawHandler { env with balanceCheck := .timeout }).1 = networkTimeoutResp) :=
  ⟨rfl, rfl, timeoutRejects_handler _ rfl⟩

/-- Evaluation of the successful mpesa scenario. -/
lemma okMobileEnv_eval :
    withdrawHandler okMobileEnv =
      (withdrawSuccessResp 1000 15 985 "0712345678" "mpesa" (some "TRF_1") 4000,
       [Ev.walletRead, Ev.balanceCheckCall, Ev.banksFetchCall, Ev.recipientCall "254712345678",
        Ev.transferCall 98500, Ev.walletUpdate 4000,
        Ev.txInsert ⟨"user0001", "withdrawal", -1000, "Withdrawal to 0712345678 (Fee: KES 15)",
          "completed", some "TRF_1", some 15, some 985⟩]) := by
  have hph : preparePhones "0712345678" = ⟨"254712345678", "0712345678"⟩ := by decide
  have hfp : findProvider "mpesa" [⟨"M-PESA", "mpesa", "MPESA"⟩] =
      some ⟨"M-PESA", "mpesa", "MPESA"⟩ := by decide
  have hmb : (("mpesa" : String) = "bank") = False := by decide
  have hsn : ((some "0712345678" : Option String) = none) = False := by decide
  have hts : toString (15 : ℚ) = "15" := by decide
  have hap : "Withdrawal to " ++ "0712345678" ++ " (Fee: KES " ++ "15" ++ ")" =
      "Withdrawal to 0712345678 (Fee: KES 15)" := by decide
  norm_num [withdrawHandler, okMobileEnv, withdrawAfterValidate, withdrawAfterFee,
    resolveAndTransfer, transferStage, settleStage, calculateFee, precheckDecide,
    banksDecide, recipResult, invalidAccountMsg, koboAmount, destString,
    withdrawSuccessResp, mobDest, hph, hfp, hmb, hsn, hts, hap, emptyResp, mkErr, mkPlainErr]

/-- Evaluation of the same scenario with a timed-out pre-check. -/
lemma timeoutPrecheckEnv_eval :
    withdrawHandler timeoutPrecheckEnv =
      (networkTimeoutResp, [Ev.walletRead, Ev.balanceCheckCall]) := by
  have hmb : (("mpesa" : String) = "bank") = False := by decide
  have hsn : ((some "0712345678" : Option String) = none) = False := by decide
  norm_num [withdrawHandler, timeoutPrecheckEnv, okMobileEnv, withdrawAfterValidate,
    withdrawAfterFee, precheckDecide, calculateFee, mobDest, hmb, hsn]

/-- Claim C1 counterexample: the only difference between the two environments
is the outcome of the Paystack balance pre-check; its timing out turns a
successful withdrawal into a 503 `network_error` rejection, so a failure of
the pre-check call can reject the withdrawal. -/
theorem c1_counterexample :
    (withdrawHandler timeoutPrecheckEnv).1.success = some false ∧
    (withdrawHandler timeoutPrecheckEnv).1.code = some "network_error" ∧
    (withdrawHandler timeoutPrecheckEnv).1.status = 503 ∧
    (withdrawHandler okMobileEnv).1.success = some true := by
  rw [timeoutPrecheckEnv_eval, okMobileEnv_eval]
  exact ⟨rfl, rfl, rfl, rfl⟩

/-- Claim C1 witness: the timed-out pre-check ran in the concrete scenario and
the response is the timeout rejection. -/
theorem c1_witness :
    Ev.balanceCheckCall ∈ (withdrawHandler timeoutPrecheckEnv).2 ∧
    (withdrawHandler timeoutPrecheckEnv).1 = networkTimeoutResp := by
  have hmem : Ev.balanceCheckCall ∈ (withdrawHandler timeoutPrecheckEnv).2 := by
    rw [timeoutPrecheckEnv_eval]
    simp
  exact ⟨hmem, (c1_precheck_failure_policy okMobileEnv).2.2 hmem⟩

/-!
## Claim C2
-/

/-- A trace without transfer initiations satisfies the once-and-generic
predicate vacuously. -/
lemma tog_of_no_transfer (r : HttpResp) (tr : List Ev)
    (h : tr.countP Ev.isTransfer = 0) : TransferOnceGeneric (r, tr) := by
  constructor
  · show tr.countP Ev.isTransfer ≤ 1
    omega
  · rintro ⟨k, hk⟩
    have h2 := List.countP_eq_zero.mp h _ hk
    simp [Ev.isTransfer] at h2

/-- The once-and-generic predicate is preserved by prepending an event that is
not a transfer initiation. -/
lemma tog_cons (e : Ev) (r : HttpResp) (tr : List Ev)
    (he : Ev.isTransfer e = false) (h : TransferOnceGeneric (r, tr)) :
    TransferOnceGeneric (r, e :: tr) := by
  obtain ⟨h1, h2⟩ := h
  constructor
  · show (e :: tr).countP Ev.isTransfer ≤ 1
    simp only [List.countP_cons, he]
    simpa using h1
  · rintro ⟨k, hk⟩
    rcases List.mem_cons.mp hk with hk | hk
    · rw [← hk] at he
      simp [Ev.isTransfer] at he
    · have h3 := h2 ⟨k, hk⟩
      refine ⟨h3.1, ?_⟩
      show (e :: tr).countP Ev.isTransfer = 1
      simp only [List.countP_cons, he]
      simpa using h3.2

/-- A failing wallet debit returns the generic wallet-update failure without
inserting a record. -/
lemma settleStage_fail (env : WEnv) (a f b : ℚ) (d : Dest) (ref : Option String)
    (hU : env.walletUpdateOk = false) :
    settleStage env a f b d ref = (walletUpdateFailResp, []) := by
  simp [settleStage, hU]

/-- With a successful transfer and a failing wallet debit, the transfer stage
initiates exactly one transfer and returns the generic failure. -/
lemma transferStage_okFail (env : WEnv) (a f b : ℚ) (d : Dest) (rc : String)
    (ref : Option String) (hT : env.transfer = .ok ref) (hU : env.walletUpdateOk = false) :
    transferStage env a f b d rc =
      (walletUpdateFailResp, [Ev.transferCall (koboAmount (a - f))]) := by
  simp [transferStage, hT, settleStage_fail env a f b d ref hU]

/-- `TransferOnceGeneric` holds of the resolution-and-transfer stage when the
transfer succeeds and the debit fails. -/
lemma tog_resolve (env : WEnv) (a f b : ℚ) (d : Dest) (ref : Option String)
    (hT : env.transfer = .ok ref) (hU : env.walletUpdateOk = false) :
    TransferOnceGeneric (resolveAndTransfer env a f b d) := by
  have htr : ∀ rc, transferStage env a f b d rc =
      (walletUpdateFailResp, [Ev.transferCall (koboAmount (a - f))]) :=
    fun rc => transferStage_okFail env a f b d rc ref hT hU
  have hbase : TransferOnceGeneric (walletUpdateFailResp, [Ev.transferCall (koboAmount (a - f))]) :=
    ⟨by simp [List.countP_cons, Ev.isTransfer], fun _ => ⟨rfl, by simp [List.countP_cons, Ev.isTransfer]⟩⟩
  unfold resolveAndTransfer
  by_cases hm : env.paymentMethod = "mpesa" ∨ env.paymentMethod = "airtel"
  · simp only [if_pos hm]
    cases hbd : banksDecide env.banksFetch with
    | error r =>
      simp only [hbd]
      exact tog_of_no_transfer _ _ (by simp [List.countP_cons, Ev.isTransfer])
    | ok banks =>
      simp only [hbd]
      cases hfp : findProvider env.paymentMethod banks with
      | none =>
        simp only [hfp]
        exact tog_of_no_transfer _ _ (by simp [List.countP_cons, Ev.isTransfer])
      | some provider =>
        simp only [hfp]
        by_cases hr1 : (recipResult (env.recip (preparePhones (d.phone_number.getD "")).intl)).ok
        · simp only [if_pos hr1, htr]
          exact tog_cons _ _ _ (by simp [Ev.isTransfer])
            (tog_cons _ _ _ (by simp [Ev.isTransfer]) hbase)
        · simp only [if_neg hr1]
          by_cases hinv :
              invalidAccountMsg (recipResult (env.recip (preparePhones (d.phone_number.getD "")).intl)) = true
          · simp only [if_pos hinv]
            by_cases hr2 : (recipResult (env.recip (preparePhones (d.phone_number.getD "")).localFmt)).ok
            · simp only [if_pos hr2, htr]
              exact tog_cons _ _ _ (by simp [Ev.isTransfer])
                (tog_cons _ _ _ (by simp [Ev.isTransfer])
                  (tog_cons _ _ _ (by simp [Ev.isTransfer]) hbase))
            · simp only [if_neg hr2]
              exact tog_of_no_transfer _ _ (by simp [List.countP_cons, Ev.isTransfer])
          · simp only [if_neg hinv]
            exact tog_of_no_transfer _ _ (by simp [List.countP_cons, Ev.isTransfer])
  · simp only [if_neg hm]
    cases hbr : bankRecipDecide env.bankRecip with
    | error r =>
      simp only [hbr]
      exact tog_of_no_transfer _ _ (by simp [List.countP_cons, Ev.isTransfer])
    | ok rc =>
      simp only [hbr]
      simp only [htr]
      exact tog_cons _ _ _ (by simp [Ev.isTransfer]) hbase

/-- `TransferOnceGeneric` holds after the fee guard when the transfer succeeds
and the debit fails. -/
lemma tog_afterFee (env : WEnv) (a f b : ℚ) (d : Dest) (ref : Option String)
    (hT : env.transfer = .ok ref) (hU : env.walletUpdateOk = false) :
    TransferOnceGeneric (withdrawAfterFee env a f b d) := by
  unfold withdrawAfterFee
  cases hp : precheckDecide (a - f) env.balanceCheck with
  | some r =>
    exact tog_of_no_transfer _ _ (by simp [List.countP_cons, Ev.isTransfer])
  | none =>
    simp only
    exact tog_cons _ _ _ (by simp [Ev.isTransfer]) (tog_resolve env a f b d ref hT hU)

/-- `TransferOnceGeneric` holds after validation when the transfer succeeds
and the debit fails. -/
lemma tog_afterValidate (env : WEnv) (a : ℚ) (d : Dest) (ref : Option String)
    (hT : env.transfer = .ok ref) (hU : env.walletUpdateOk = false) :
    TransferOnceGeneric (withdrawAfterValidate env a d) := by
  unfold withdrawAfterValidate
  cases hw : env.walletBalance with
  | none => exact tog_of_no_transfer _ _ (by simp [List.countP_cons, Ev.isTransfer])
  | some b =>
    by_cases h1 : b < a
    · simp only [if_pos h1]
      exact tog_of_no_transfer _ _ (by simp [List.countP_cons, Ev.isTransfer])
    · simp only [if_neg h1]
      by_cases h2 : env.secretConfigured = false
      · simp only [if_pos h2]
        exact tog_of_no_transfer _ _ (by simp [List.countP_cons, Ev.isTransfer])
      · simp only [if_neg h2]
        by_cases h3 : a - calculateFee a env.paymentMethod ≤ 0
        · simp only [if_pos h3]
          exact tog_of_no_transfer _ _ (by simp [List.countP_cons, Ev.isTransfer])
        · simp only [if_neg h3]
          exact tog_cons _ _ _ (by simp [Ev.isTransfer]) (tog_afterFee env a _ b d ref hT hU)

/-- `TransferOnceGeneric` holds of the whole handler when the transfer
succeeds and the debit fails. -/
lemma tog_handler (env : WEnv) (ref : Option String)
    (hT : env.transfer = .ok ref) (hU : env.walletUpdateOk = false) :
    TransferOnceGeneric (withdrawHandler env) := by
  unfold withdrawHandler
  cases ha : env.amount with
  | none => exact tog_of_no_transfer _ _ rfl
  | some amount =>
    by_cases h1 : amount ≤ 0
    · simp only [if_pos h1]
      exact tog_of_no_transfer _ _ rfl
    · simp only [if_neg h1]
      cases hd : env.dest with
      | none => exact tog_of_no_transfer _ _ rfl
      | some dest =>
        by_cases h2 : env.paymentMethod = "bank"
        · simp only [if_pos h2]
          by_cases h3 : dest.account_number = none ∨ dest.bank_name = none ∨
              dest.account_name = none
          · simp only [if_pos h3]
            exact tog_of_no_transfer _ _ rfl
          · simp only [if_neg h3]
            exact tog_afterValidate env amount dest ref hT hU
        · simp only [if_neg h2]
          by_cases h4 : dest.phone_number = none
          · simp only [if_pos h4]
            exact tog_of_no_transfer _ _ rfl
          · simp only [if_neg h4]
            exact tog_afterValidate env amount dest ref hT hU

/-- Claim C2 amended: if the provider transfer succeeded and the subsequent
wallet debit fails, the caller receives the generic 500
`Failed to update wallet` response with no error code at all (in particular it
is not classified as `ledger_inconsistency`), and exactly one transfer was
initiated (the transfer is not retried after the debit failure). -/
theorem c2_ledger_debit_failure (env : WEnv) (ref : Option String)
    (hT : env.transfer = .ok ref) (hU : env.walletUpdateOk = false) :
    (withdrawHandler env).2.countP Ev.isTransfer ≤ 1 ∧
    ((∃ k, Ev.transferCall k ∈ (withdrawHandler env).2) →
      (withdrawHandler env).1 = walletUpdateFailResp ∧
      (withdrawHandler env).1.code = none ∧
      (withdrawHandler env).2.countP Ev.isTransfer = 1) := by
  have h := tog_handler env ref hT hU
  refine ⟨h.1, fun hex => ⟨(h.2 hex).1, ?_, (h.2 hex).2⟩⟩
  rw [(h.2 hex).1]
  rfl

/-- Evaluation of the scenario whose wallet debit fails after a successful
transfer. -/
lemma debitFailEnv_eval :
    withdrawHandler debitFailEnv =
      (walletUpdateFailResp,
       [Ev.walletRead, Ev.balanceCheckCall, Ev.banksFetchCall, Ev.recipientCall "254712345678",
        Ev.transferCall 98500]) := by
  have hph : preparePhones "0712345678" = ⟨"254712345678", "0712345678"⟩ := by decide
  have hfp : findProvider "mpesa" [⟨"M-PESA", "mpesa", "MPESA"⟩] =
      some ⟨"M-PESA", "mpesa", "MPESA"⟩ := by decide
  have hmb : (("mpesa" : String) = "bank") = False := by decide
  have hsn : ((some "0712345678" : Option String) = none) = False := by decide
  norm_num [withdrawHandler, debitFailEnv, okMobileEnv, withdrawAfterValidate,
    withdrawAfterFee, resolveAndTransfer, transferStage, settleStage, calculateFee,
    precheckDecide, banksDecide, recipResult, invalidAccountMsg, koboAmount,
    mobDest, hph, hfp, hmb, hsn, emptyResp, mkErr, mkPlainErr]

/-- Claim C2 counterexample: in the concrete scenario where the transfer
succeeded and the debit failed, the response carries no `ledger_inconsistency`
code: it is the generic `Failed to update wallet` 500. -/
theorem c2_counterexample :
    (withdrawHandler debitFailEnv).1.code ≠ some "ledger_inconsistency" ∧
    (withdrawHandler debitFailEnv).1.error = some "Failed to update wallet" ∧
    (withdrawHandler debitFailEnv).1.status = 500 := by
  rw [debitFailEnv_eval]
  refine ⟨by simp [walletUpdateFailResp, mkErr, emptyResp], rfl, rfl⟩

/-- Claim C2 witness: the amended claim instantiated on the concrete failing
scenario, in which one transfer was initiated. -/
theorem c2_witness :
    (withdrawHandler debitFailEnv).1 = walletUpdateFailResp ∧
    (withdrawHandler debitFailEnv).1.code = none ∧
    (withdrawHandler debitFailEnv).2.countP Ev.isTransfer = 1 := by
  have h := c2_ledger_debit_failure debitFailEnv (some "TRF_1") rfl rfl
  have hex : ∃ k, Ev.transferCall k ∈ (withdrawHandler debitFailEnv).2 := by
    refine ⟨98500, ?_⟩
    rw [debitFailEnv_eval]
    simp
  exact h.2 hex

/-!
## Claim C7
-/

lemma recipPhones_nil : recipPhones [] = [] := rfl

/-- Computation rule of `recipPhones` over one event. -/
lemma recipPhones_cons (e : Ev) (tr : List Ev) :
    recipPhones (e :: tr) =
      (match e with | Ev.recipientCall p => [p] | _ => []) ++ recipPhones tr := by
  cases e <;> simp [recipPhones]

/-- Settlement attempts no recipient creation. -/
lemma recipPhones_settle (env : WEnv) (a f b : ℚ) (d : Dest) (ref : Option String) :
    recipPhones (settleStage env a f b d ref).2 = [] := by
  unfold settleStage
  split_ifs <;> simp [recipPhones]

/-- The transfer stage attempts no recipient creation. -/
lemma recipPhones_transfer (env : WEnv) (a f b : ℚ) (d : Dest) (rc : String) :
    recipPhones (transferStage env a f b d rc).2 = [] := by
  unfold transferStage
  cases ht : env.transfer with
  | timeout => simp [recipPhones]
  | otherError => simp [recipPhones]
  | parseError => simp [recipPhones]
  | failed st msg code => simp [recipPhones]
  | ok ref =>
    simp only
    rw [recipPhones_cons]
    simp [recipPhones_settle env a f b d ref]

/-- The recipient-attempt discipline holds of the resolution stage. -/
lemma recipAttempts_resolve (env : WEnv) (a f b : ℚ) (d : Dest) :
    RecipAttemptsSpec env d (resolveAndTransfer env a f b d) := by
  unfold RecipAttemptsSpec resolveAndTransfer
  by_cases hm : env.paymentMethod = "mpesa" ∨ env.paymentMethod = "airtel"
  · simp only [if_pos hm]
    cases hbd : banksDecide env.banksFetch with
    | error r =>
      simp only [hbd]
      exact Or.inl (by simp [recipPhones_cons, recipPhones_nil])
    | ok banks =>
      simp only [hbd]
      cases hfp : findProvider env.paymentMethod banks with
      | none =>
        simp only [hfp]
        exact Or.inl (by simp [recipPhones_cons, recipPhones_nil])
      | some provider =>
        simp only [hfp]
        by_cases hr1 : (recipResult (env.recip (preparePhones (d.phone_number.getD "")).intl)).ok
        · simp only [if_pos hr1]
          refine Or.inr (Or.inl ⟨?_, ?_⟩)
          · simp [recipPhones_cons, recipPhones_nil, recipPhones_transfer]
          · simp [invalidAccountMsg, hr1]
        · simp only [if_neg hr1]
          by_cases hinv : invalidAccountMsg
              (recipResult (env.recip (preparePhones (d.phone_number.getD "")).intl)) = true
          · simp only [if_pos hinv]
            by_cases hr2 : (recipResult (env.recip (preparePhones (d.phone_number.getD "")).localFmt)).ok
            · simp only [if_pos hr2]
              refine Or.inr (Or.inr ⟨?_, hinv⟩)
              simp [recipPhones_cons, recipPhones_nil, recipPhones_transfer]
            · simp only [if_neg hr2]
              refine Or.inr (Or.inr ⟨?_, hinv⟩)
              simp [recipPhones_cons, recipPhones_nil]
          · simp only [if_neg hinv]
            refine Or.inr (Or.inl ⟨?_, by simpa using hinv⟩)
            simp [recipPhones_cons, recipPhones_nil]
  · simp only [if_neg hm]
    cases hbr : bankRecipDecide env.bankRecip with
    | error r =>
      simp only [hbr]
      exact Or.inl (by simp [recipPhones_cons, recipPhones_nil])
    | ok rc =>
      simp only [hbr]
      exact Or.inl (by simp [recipPhones_cons, recipPhones_nil, recipPhones_transfer])

/-- The recipient-attempt discipline holds after the fee guard. -/
lemma recipAttempts_afterFee (env : WEnv) (a f b : ℚ) (dest : Dest) :
    RecipAttemptsSpec env dest (withdrawAfterFee env a f b dest) := by
  unfold withdrawAfterFee
  cases hp : precheckDecide (a - f) env.balanceCheck with
  | some r =>
    simp only [hp]
    exact Or.inl (by simp [recipPhones_cons, recipPhones_nil])
  | none =>
    simp only [hp]
    have h := recipAttempts_resolve env a f b dest
    unfold RecipAttemptsSpec at h ⊢
    rcases h with h | h | h
    · exact Or.inl (by simp [recipPhones_cons, h])
    · exact Or.inr (Or.inl ⟨by simp [recipPhones_cons, h.1], h.2⟩)
    · exact Or.inr (Or.inr ⟨by simp [recipPhones_cons, h.1], h.2⟩)

/-- The recipient-attempt discipline holds after validation. -/
lemma recipAttempts_afterValidate (env : WEnv) (a : ℚ) (dest : Dest) :
    RecipAttemptsSpec env dest (withdrawAfterValidate env a dest) := by
  unfold withdrawAfterValidate
  cases hw : env.walletBalance with
  | none =>
    exact Or.inl (by simp [recipPhones_cons, recipPhones_nil])
  | some b =>
    by_cases h1 : b < a
    · simp only [if_pos h1]
      exact Or.inl (by simp [recipPhones_cons, recipPhones_nil])
    · simp only [if_neg h1]
      by_cases h2 : env.secretConfigured = false
      · simp only [if_pos h2]
        exact Or.inl (by simp [recipPhones_cons, recipPhones_nil])
      · simp only [if_neg h2]
        by_cases h3 : a - calculateFee a env.paymentMethod ≤ 0
        · simp only [if_pos h3]
          exact Or.inl (by simp [recipPhones_cons, recipPhones_nil])
        · simp only [if_neg h3]
          have h := recipAttempts_afterFee env a (calculateFee a env.paymentMethod) b dest
          unfold RecipAttemptsSpec at h ⊢
          rcases h with h | h | h
          · exact Or.inl (by simp [recipPhones_cons, h])
          · exact Or.inr (Or.inl ⟨by simp [recipPhones_cons, h.1], h.2⟩)
          · exact Or.inr (Or.inr ⟨by simp [recipPhones_cons, h.1], h.2⟩)

/-- The recipient-attempt discipline holds of the whole withdrawal handler. -/
lemma recipAttempts_handler (env : WEnv) (dest : Dest) (hdest : env.dest = some dest) :
    RecipAttemptsSpec env dest (withdrawHandler env) := by
  unfold withdrawHandler
  cases ha : env.amount with
  | none => exact Or.inl recipPhones_nil
  | some amount =>
    by_cases h1 : amount ≤ 0
    · simp only [if_pos h1]
      exact Or.inl recipPhones_nil
    · simp only [if_neg h1, hdest]
      by_cases h2 : env.paymentMethod = "bank"
      · simp only [if_pos h2]
        by_cases h3 : dest.account_number = none ∨ dest.bank_name = none ∨
            dest.account_name = none
        · simp only [if_pos h3]
          exact Or.inl recipPhones_nil
        · simp only [if_neg h3]
          exact recipAttempts_afterValidate env amount dest
      · simp only [if_neg h2]
        by_cases h4 : dest.phone_number = none
        · simp only [if_pos h4]
          exact Or.inl recipPhones_nil
        · simp only [if_neg h4]
          exact recipAttempts_afterValidate env amount dest

/-- Claim C7: in a mobile-money withdrawal, whenever recipient creation is
attempted the first attempt uses the normalized international phone form,
at most two attempts are made, and a second attempt (with the local form) is
made exactly when the first one failed with a message containing
`account number is invalid` (case-insensitively). -/
theorem c7_phone_format_fallback (env : WEnv) (dest : Dest)
    (hm : env.paymentMethod = "mpesa" ∨ env.paymentMethod = "airtel")
    (hdest : env.dest = some dest) :
    RecipAttemptsSpec env dest (withdrawHandler env) ∧
    (recipPhones (withdrawHandler env).2).length ≤ 2 ∧
    (∀ p, (recipPhones (withdrawHandler env).2).head? = some p →
      p = (preparePhones (dest.phone_number.getD "")).intl) ∧
    ((recipPhones (withdrawHandler env).2 =
        [(preparePhones (dest.phone_number.getD "")).intl,
         (preparePhones (dest.phone_number.getD "")).localFmt]) ↔
      (recipPhones (withdrawHandler env).2 ≠ [] ∧
       invalidAccountMsg
         (recipResult (env.recip (preparePhones (dest.phone_number.getD "")).intl)) = true)) := by
  have h := recipAttempts_handler env dest hdest
  refine ⟨h, ?_, ?_, ?_⟩
  · unfold RecipAttemptsSpec at h
    rcases h with h | h | h
    · simp [h]
    · simp [h.1]
    · simp [h.1]
  · intro p hp
    unfold RecipAttemptsSpec at h
    rcases h with h | h | h
    · rw [h] at hp
      simp at hp
    · rw [h.1] at hp
      simpa using hp.symm
    · rw [h.1] at hp
      simpa using hp.symm
  · unfold RecipAttemptsSpec at h
    constructor
    · intro heq
      rcases h with h | h | h
      · rw [heq] at h
        simp at h
      · rw [heq] at h
        simp at h
      · exact ⟨by rw [heq]; simp, h.2⟩
    · rintro ⟨hne, hcond⟩
      rcases h with h | h | h
      · exact absurd h hne
      · rw [h.2] at hcond
        simp at hcond
      · exact h.1

/-- Evaluation of the scenario in which the provider rejects the international
phone form as an invalid account number and accepts the local form. -/
lemma fallbackRecipEnv_eval :
    recipPhones (withdrawHandler fallbackRecipEnv).2 = ["254712345678", "0712345678"] := by
  have hph : preparePhones "0712345678" = ⟨"254712345678", "0712345678"⟩ := by decide
  have hfp : findProvider "mpesa" [⟨"M-PESA", "mpesa", "MPESA"⟩] =
      some ⟨"M-PESA", "mpesa", "MPESA"⟩ := by decide
  have hmb : (("mpesa" : String) = "bank") = False := by decide
  have hsn : ((some "0712345678" : Option String) = none) = False := by decide
  have hpe : (("254712345678" : String) = "254712345678") = True := by decide
  have hpl : (("0712345678" : String) = "254712345678") = False := by decide
  have hinv : invalidAccountMsg ⟨false, none, some "Account number is invalid", none⟩ = true := by
    decide
  have hts : toString (15 : ℚ) = "15" := by decide
  norm_num [withdrawHandler, fallbackRecipEnv, okMobileEnv, withdrawAfterValidate,
    withdrawAfterFee, resolveAndTransfer, transferStage, settleStage, calculateFee,
    precheckDecide, banksDecide, recipResult, koboAmount, destString, mobDest,
    hph, hfp, hmb, hsn, hpe, hpl, hinv, hts, recipPhones, List.filterMap_cons,
    emptyResp, mkErr, mkPlainErr]

/-- Claim C7 witness: the discipline instantiated on the concrete fallback
scenario, in which both forms were attempted, international first. -/
theorem c7_witness :
    RecipAttemptsSpec fallbackRecipEnv mobDest (withdrawHandler fallbackRecipEnv) ∧
    recipPhones (withdrawHandler fallbackRecipEnv).2 = ["254712345678", "0712345678"] :=
  ⟨(c7_phone_format_fallback fallbackRecipEnv mobDest (Or.inl rfl) rfl).1,
   fallbackRecipEnv_eval⟩

end QuickHelloWave
